import Mathlib

/-!
Verification of the Eliot-model absorption-fitting pipeline.

The definitions below are a shallow embedding of the Python sources
`fsum2d.py` and `fitter.py`: numpy float arrays become `List ℝ`, numpy
scalar floats become `ℝ`, and a Python `raise` becomes `Option.none`.
Each definition mirrors one function (or one contiguous block) of the
source, keeping the source's guards, branch order and constants.
-/

/-- The six model parameters `[Eg, Eb, Gamma, ucvsq, mhcnp, q]` of `fsum2d`. -/
structure FSumParams where
  Eg : ℝ
  Eb : ℝ
  gamma : ℝ
  ucvsq : ℝ
  mhcnp : ℝ
  q : ℝ

/-- `np.clip(t, -700, 700)`: clamp the hyperbolic argument (fsum2d.py lines 62, 90). -/
noncomputable def clip700 (t : ℝ) : ℝ := max (-700) (min t 700)

/-- `1 / np.cosh t`: the hyperbolic-secant shape factor used by `fsum2d`. -/
noncomputable def sech (t : ℝ) : ℝ := 1 / Real.cosh t

/-- `gamma_safe = max(abs(gamma), 1e-10)` (fsum2d.py line 50). -/
noncomputable def gammaSafe (g : ℝ) : ℝ := max |g| (1 / 10 ^ 10)

/-- One exciton term of the `for i in range(1, 51)` loop (fsum2d.py lines 54-64):
skipped (contributing 0) when `|i - q| < 1e-10`, otherwise
`2*Eb/(i-q)^3 * sech(clip((E - Enx)/gamma_safe))` with `Enx = Eg - Eb/(i-q)^2`. -/
noncomputable def excitonTerm (p : FSumParams) (i : ℕ) (E : ℝ) : ℝ :=
  if |(i : ℝ) - p.q| < 1 / 10 ^ 10 then 0
  else
    2 * p.Eb / ((i : ℝ) - p.q) ^ 3 *
      sech (clip700 ((E - (p.Eg - p.Eb / ((i : ℝ) - p.q) ^ 2)) / gammaSafe p.gamma))

/-- The accumulated exciton sum `a1` at one energy point (fsum2d.py lines 53-64). -/
noncomputable def excitonA1 (p : FSumParams) (E : ℝ) : ℝ :=
  ((List.range 50).map (fun k => excitonTerm p (k + 1) E)).sum

/-- `np.linspace a b k`: `k` evenly spaced points from `a` to `b` inclusive. -/
noncomputable def linspace (a b : ℝ) (k : ℕ) : List ℝ :=
  (List.range k).map (fun i => a + (b - a) * (i : ℝ) / ((k : ℝ) - 1))

/-- One row `a2[i, :]` of the band-integration grid (fsum2d.py lines 70-91):
zero when `E_i - Eg <= 0`; otherwise
`sech(clip((x_j - E_i)/gamma_safe)) * ((1 + b) / denominator)` with
`b = 10*mhcnp*dE + 126*mhcnp^2*dE^2` and the guarded denominator
`1 - exp(-2*pi*sqrt(Eb/dE))` (floored at `1e-10` in magnitude, and set to 1
when `Eb/dE <= 0`). -/
noncomputable def bandRow (p : FSumParams) (Ei : ℝ) (x : List ℝ) : List ℝ :=
  let dE := Ei - p.Eg
  if dE ≤ 0 then x.map (fun _ => 0)
  else
    let b := 10 * p.mhcnp * dE + 126 * p.mhcnp ^ 2 * dE ^ 2
    let sqrtArg := p.Eb / dE
    let denom :=
      if sqrtArg ≤ 0 then 1
      else
        let d0 := 1 - Real.exp (-(2 * Real.pi * Real.sqrt sqrtArg))
        if |d0| < 1 / 10 ^ 10 then 1 / 10 ^ 10 else d0
    x.map (fun xj => sech (clip700 ((xj - Ei) / gammaSafe p.gamma)) * ((1 + b) / denom))

/-- Pointwise sum of two numpy vectors. -/
noncomputable def vadd (u v : List ℝ) : List ℝ := List.zipWith (· + ·) u v

/-- Scalar multiple of a numpy vector. -/
noncomputable def vsmul (c : ℝ) (v : List ℝ) : List ℝ := v.map (fun t => c * t)

/-- Column-wise `np.trapz(a2, E, axis=0)` over the list of `(E_i, a2[i, :])`
pairs: the sum of the trapezoids `(E_{i+1} - E_i) * (row_i + row_{i+1}) / 2`.
`n` is the column count (the length of the energy axis). -/
noncomputable def trapzAux : List (ℝ × List ℝ) → ℕ → List ℝ
  | (e1, r1) :: (e2, r2) :: rest, n =>
      vadd (vsmul ((e2 - e1) / 2) (vadd r1 r2)) (trapzAux ((e2, r2) :: rest) n)
  | _, n => List.replicate n 0

/-- The exciton vector `a1` over the whole energy axis (fsum2d.py lines 53-64). -/
noncomputable def fsum2dA1 (p : FSumParams) (x : List ℝ) : List ℝ :=
  x.map (excitonA1 p)

/-- The auxiliary band-integration grid `E = np.linspace(Eg, 2*Eg, 10*len(xdata))`
(fsum2d.py line 67). -/
noncomputable def fsum2dGrid (p : FSumParams) (n : ℕ) : List ℝ :=
  linspace p.Eg (2 * p.Eg) (10 * n)

/-- `band_contribution = trapz(a2, E, axis=0)` (fsum2d.py lines 68-94). -/
noncomputable def fsum2dBandC (p : FSumParams) (x : List ℝ) : List ℝ :=
  let grid := fsum2dGrid p x.length
  trapzAux (grid.zip (grid.map (fun Ei => bandRow p Ei x))) x.length

/-- `FittedCurve = ucvsq * np.sqrt(Eb) * (band_contribution + a1)` (fsum2d.py line 96). -/
noncomputable def fsum2dFitted (p : FSumParams) (x : List ℝ) : List ℝ :=
  List.zipWith (fun b a => p.ucvsq * Real.sqrt p.Eb * (b + a))
    (fsum2dBandC p x) (fsum2dA1 p x)

/-- The full `fsum2d(params, xdata, ydata)` evaluator (fsum2d.py lines 39-108),
returning `(sse, FittedCurve, exciton, band)`.  The sse is multiplied by 10
when `mhcnp <= 0` (line 105-106). -/
noncomputable def fsum2d (p : FSumParams) (x y : List ℝ) :
    ℝ × List ℝ × List ℝ × List ℝ :=
  let fitted := fsum2dFitted p x
  let exciton := (fsum2dA1 p x).map (fun a => p.ucvsq * Real.sqrt p.Eb * a)
  let band := (fsum2dBandC p x).map (fun b => p.ucvsq * Real.sqrt p.Eb * b)
  let err := List.zipWith (· - ·) fitted y
  let sse0 := (err.map (fun t => t ^ 2)).sum
  (if p.mhcnp ≤ 0 then 10 * sse0 else sse0, fitted, exciton, band)

/-- The unpenalized residual `sum((FittedCurve - ydata)^2)` of an `fsum2d` run,
recomputed from the curve the run returns. -/
noncomputable def fsum2dRawSSE (p : FSumParams) (x y : List ℝ) : ℝ :=
  (List.zipWith (fun f yo => (f - yo) ^ 2) (fsum2d p x y).2.1 y).sum

/-- Number of `True` entries of a boolean mask (`np.sum(mask)`). -/
def countTrue (m : List Bool) : ℕ := (m.filter id).length

/-- `v[mask]`: the entries of `v` selected by a boolean mask. -/
def maskSelect {α : Type} (v : List α) (m : List Bool) : List α :=
  ((v.zip m).filter (fun pr => pr.2)).map (fun pr => pr.1)

/-- The point-selection mask of `FSumFitter.fit_baseline` (fitter.py lines 73-123),
computed before the mode dispatch.  `none` for `Eg`/`Eb` is Python `None`.
The orientation test is `xdata[0] < xdata[-1]`.  Note that the fallback of the
`Eg`-only branch (lines 106-109) sets the first `min(20, len)` array positions
regardless of orientation. -/
noncomputable def baselineMask (x : List ℝ) (Eg Eb : Option ℝ) : List Bool :=
  let n := x.length
  match Eg with
  | some eg =>
    match Eb with
    | some eb =>
      if 0 < eb then
        let mask := x.map (fun t => if t < eg - 3 / 2 * eb then true else false)
        if countTrue mask < 5 then
          let k := max 10 (min 50 (3 * n / 10))
          if x.headD 0 < x.getLastD 0 then
            (List.range n).map (fun i => if i < k then true else false)
          else
            (List.range n).map (fun i => if n - k ≤ i then true else false)
        else mask
      else
        let mask := x.map (fun t => if t < eg then true else false)
        if countTrue mask < 5 then
          (List.range n).map (fun i => if i < min 20 n then true else false)
        else mask
    | none =>
      let mask := x.map (fun t => if t < eg then true else false)
      if countTrue mask < 5 then
        (List.range n).map (fun i => if i < min 20 n then true else false)
      else mask
  | none =>
    let k := max 10 (min 50 (3 * n / 10))
    if x.headD 0 < x.getLastD 0 then
      (List.range n).map (fun i => if i < k then true else false)
    else
      (List.range n).map (fun i => if n - k ≤ i then true else false)

/-- Degree-1 least-squares fit `np.polyfit(xs, ys, 1)` in closed form,
returning `(slope, intercept)`. -/
noncomputable def polyfit1 (xs ys : List ℝ) : ℝ × ℝ :=
  let k := (xs.length : ℝ)
  let sx := xs.sum
  let sy := ys.sum
  let sxy := (List.zipWith (· * ·) xs ys).sum
  let sxx := (xs.map (fun t => t ^ 2)).sum
  let slope := (k * sxy - sx * sy) / (k * sxx - sx ^ 2)
  (slope, (sy - slope * sx) / k)

/-- `FSumFitter.fit_baseline` (fitter.py lines 47-153): returns the baseline
curve over the full domain together with the mask of points used to fit it;
`none` models the `ValueError` raised for an unsupported `fitmode`. -/
noncomputable def fitBaseline (fitmode : ℤ) (x y : List ℝ) (Eg Eb : Option ℝ) :
    Option (List ℝ × List Bool) :=
  if fitmode = 0 then some (List.replicate x.length 0, List.replicate x.length false)
  else
    let mask := baselineMask x Eg Eb
    let xFit := maskSelect x mask
    let yFit := maskSelect y mask
    if xFit.length < 2 then some (List.replicate x.length 0, mask)
    else if fitmode = 1 then
      let c := polyfit1 xFit yFit
      some (x.map (fun t => c.1 * t + c.2), mask)
    else if fitmode = 2 then
      let e8 := (xFit.map (fun t => t ^ 8)).sum
      if e8 < 1 / 10 ^ 10 then some (List.replicate x.length 0, mask)
      else
        let a := (List.zipWith (· * ·) yFit (xFit.map (fun t => t ^ 4))).sum / e8
        some (x.map (fun t => a * t ^ 4), mask)
    else none

/-- The index list `np.where(xdata < abs(Eb - Eg))[0]` of
`calculate_urbach_energy` (fitter.py lines 239-240). -/
noncomputable def urbachIndices (x : List ℝ) (Eb Eg : ℝ) : List ℕ :=
  (List.range x.length).filter (fun i => if x.getD i 0 < |Eb - Eg| then true else false)

/-- `FSumFitter.calculate_urbach_energy` (fitter.py lines 214-264): the sub-gap
exponential-tail fit, with its two zero-returning fallbacks. -/
noncomputable def calculateUrbach (x y : List ℝ) (Eb Eg : ℝ) : ℝ × ℝ × List ℝ :=
  match urbachIndices x Eb Eg with
  | [] => (0, 0, List.replicate x.length 0)
  | i :: _ =>
    let s := min (i + 2) (x.length - 1)
    let e := min (i + 10) x.length
    if e ≤ s then (0, 0, List.replicate x.length 0)
    else
      let xFit := (x.drop s).take (e - s)
      let yFit := (y.drop s).take (e - s)
      let c := polyfit1 xFit (yFit.map Real.log)
      (c.1, c.2, x.map (fun t => c.2 + c.1 * t))

/-- Insert into a sorted list (ascending). -/
noncomputable def insertR (a : ℝ) : List ℝ → List ℝ
  | [] => [a]
  | b :: t => if a ≤ b then a :: b :: t else b :: insertR a t

/-- Ascending insertion sort, modelling numpy's internal sort. -/
noncomputable def sortR (l : List ℝ) : List ℝ := l.foldr insertR []

/-- `np.median`: the middle element of the sorted data, or the mean of the two
middle elements for an even count. -/
noncomputable def npMedian (l : List ℝ) : ℝ :=
  let s := sortR l
  let n := l.length
  if n % 2 = 1 then s.getD (n / 2) 0
  else (s.getD (n / 2 - 1) 0 + s.getD (n / 2) 0) / 2

/-- The ascending-orientation bandgap scan of `process_file` (fitter.py lines
439-447): the first energy whose cleaned absorption exceeds `0.01`. -/
noncomputable def findCrossAsc : List ℝ → List ℝ → Option ℝ
  | a :: xs, b :: cs => if 1 / 100 < b then some a else findCrossAsc xs cs
  | _, _ => none

/-- The descending-orientation bandgap scan of `process_file` (fitter.py lines
449-453): `for idx in range(len - 1, -1, -1)`, checking index `k` downwards. -/
noncomputable def findCrossDesc (x c : List ℝ) : ℕ → Option ℝ
  | 0 => if 1 / 100 < c.getD 0 0 then some (x.getD 0 0) else none
  | k + 1 =>
      if 1 / 100 < c.getD (k + 1) 0 then some (x.getD (k + 1) 0)
      else findCrossDesc x c k

/-- The bandgap-detection step of `process_file` (fitter.py lines 437-456):
initial `Eg` from the first `> 0.01` crossing in the orientation-appropriate
scan, with the median energy as the no-crossing fallback. -/
noncomputable def initialEg (x c : List ℝ) : ℝ :=
  if x.headD 0 < x.getLastD 0 then (findCrossAsc x c).getD (npMedian x)
  else (findCrossDesc x c (c.length - 1)).getD (npMedian x)

/-- Modelled from the spec's words for C6: pair the axis with the cleaned data
in increasing-energy order (the reverse of both lists when the axis is stored
descending), take the first pair whose cleaned value exceeds `0.01`, and fall
back to the median energy. -/
noncomputable def specInitialEg (x c : List ℝ) : ℝ :=
  let lowFirst := if x.headD 0 < x.getLastD 0 then x.zip c else x.reverse.zip c.reverse
  ((lowFirst.find? (fun pr => if 1 / 100 < pr.2 then true else false)).map Prod.fst).getD (npMedian x)

/-- The bounded optimizer (`scipy.optimize.minimize`, method L-BFGS-B) is an
external collaborator: it is modelled as an opaque argument mapping a start
point, a `(lower, upper)` bound pair and the data to the returned iterate
`result.x`. -/
def Minimizer : Type :=
  FSumParams → FSumParams × FSumParams → List ℝ → List ℝ → FSumParams

/-- `FSumFitter.fit_data` (fitter.py lines 162-212): run the optimizer, then
recompute the sse at the returned estimates via `fsum2d` (line 210). -/
noncomputable def fitData (M : Minimizer) (x y : List ℝ) (start : FSumParams)
    (bds : FSumParams × FSumParams) : FSumParams × ℝ :=
  let est := M start bds x y
  (est, (fsum2d est x y).1)

/-- The step-5 fit mask of `process_file` (fitter.py lines 522-532): the
user-bounded window, replaced by the full range when it has fewer than 10
points. -/
noncomputable def step5Mask (x : List ℝ) (minE maxE : Option ℝ) : List Bool :=
  let m0 := x.map (fun t =>
    (match minE with | none => true | some lo => if lo ≤ t then true else false) &&
    (match maxE with | none => true | some hi => if t ≤ hi then true else false))
  if countTrue m0 < 10 then List.replicate x.length true else m0

/-- The auto-range mask of `process_file` (fitter.py lines 548-558):
`[Eg - 0.5, Eg + 0.5]` intersected with any caller-supplied bounds. -/
noncomputable def autoMaskOf (x : List ℝ) (minE maxE : Option ℝ) (eg : ℝ) : List Bool :=
  x.map (fun t =>
    (if eg - 1 / 2 ≤ t then true else false) && (if t ≤ eg + 1 / 2 then true else false) &&
    (match minE with | none => true | some lo => if lo ≤ t then true else false) &&
    (match maxE with | none => true | some hi => if t ≤ hi then true else false))

/-- Steps 6 and 7 of `process_file` (fitter.py lines 537-573): the final fit
over the step-5 mask, then the optional auto-range refit whose mask and sse
become authoritative when it runs.  Returns `(estimates, sse, fit_mask)`. -/
noncomputable def finalStageCore (M : Minimizer) (x ydata : List ℝ)
    (minE maxE : Option ℝ) (autoRange : Option Bool) (start : FSumParams)
    (bds : FSumParams × FSumParams) : FSumParams × ℝ × List Bool :=
  let fitMask := step5Mask x minE maxE
  let r1 := fitData M (maskSelect x fitMask) (maskSelect ydata fitMask) start bds
  if autoRange ≠ some false then
    let am := autoMaskOf x minE maxE r1.1.Eg
    if 10 < countTrue am then
      let r2 := fitData M (maskSelect x am) (maskSelect ydata am) r1.1 bds
      (r2.1, r2.2, am)
    else (r1.1, r1.2, fitMask)
  else (r1.1, r1.2, fitMask)

/-- The R-squared computation of `process_file` (fitter.py lines 586-589):
`1 - sse / SStot` over the masked cleaned data, and `0` when `SStot` is not
positive. -/
noncomputable def rSquaredOf (ydata : List ℝ) (mask : List Bool) (sse : ℝ) : ℝ :=
  let yf := maskSelect ydata mask
  let mean := yf.sum / (yf.length : ℝ)
  let ssTot := (yf.map (fun v => (v - mean) ^ 2)).sum
  if 0 < ssTot then 1 - sse / ssTot else 0

/-- The per-dataset outcome of steps 6-7 plus the reported quality. -/
structure StageResult where
  est : FSumParams
  sse : ℝ
  fitMask : List Bool
  rsq : ℝ

/-- Steps 6, 7 and 10 of `process_file` together: the authoritative
`(estimates, sse, fit_mask)` from `finalStageCore`, and the R-squared
computed afterwards (fitter.py lines 586-589) from the same ambient
`sse` and `fit_mask` variables. -/
noncomputable def finalStage (M : Minimizer) (x ydata : List ℝ)
    (minE maxE : Option ℝ) (autoRange : Option Bool) (start : FSumParams)
    (bds : FSumParams × FSumParams) : StageResult :=
  let core := finalStageCore M x ydata minE maxE autoRange start bds
  ⟨core.1, core.2.1, core.2.2, rSquaredOf ydata core.2.2 core.2.1⟩

/-- `np.percentile(l, p)` with the default linear interpolation. -/
noncomputable def npPercentile (l : List ℝ) (p : ℝ) : ℝ :=
  let s := sortR l
  let h := ((l.length : ℝ) - 1) * p / 100
  let i := ⌊h⌋.toNat
  s.getD i 0 + (h - ⌊h⌋) * (s.getD (i + 1) 0 - s.getD i 0)

/-- The mutable configuration of an `FSumFitter` instance
(fitter.py lines 22-44). -/
structure FitterState where
  deltaE : ℝ
  NS : ℕ
  fitmode : ℤ
  startPoint : FSumParams
  lb : FSumParams
  rb : FSumParams

/-- Everything `process_file` records for one dataset. -/
structure DatasetResult where
  est : FSumParams
  sse : ℝ
  fitMask : List Bool
  baseline : List ℝ
  baselineMask : List Bool
  rsq : ℝ
  urbach : ℝ × ℝ × List ℝ
  curves : ℝ × List ℝ × List ℝ × List ℝ

/-- One iteration of the per-dataset loop of `process_file` (fitter.py lines
401-610), with the optimizer abstracted as `M`: initial baseline, bandgap
detection, dynamic start point and bounds, preliminary fit on the 10th-90th
percentile window, baseline refinement, final fit with optional auto-range
refinement, R-squared, Urbach estimate, and the warm-start mutation
`self.start_point = estimates.copy()` (line 575).  `none` propagates a raised
`ValueError`. -/
noncomputable def processDataset (M : Minimizer) (minE maxE : Option ℝ)
    (autoRange : Option Bool) (st : FitterState) (x rawcol : List ℝ) :
    Option (DatasetResult × FitterState) :=
  match (if st.fitmode = 0 then
      some (List.replicate x.length (0 : ℝ), List.replicate x.length false)
    else fitBaseline st.fitmode x rawcol none none) with
  | none => none
  | some ib =>
    let cleaned := List.zipWith (· - ·) rawcol ib.1
    let iEg := initialEg x cleaned
    let dynStart : FSumParams :=
      { st.startPoint with Eg := iEg, Eb := 1 / 20, q := 0 }
    let dlb : FSumParams := { st.lb with Eg := iEg - 1 / 5 }
    let drb : FSumParams := { st.rb with Eg := iEg + 1 / 5 }
    let bds : FSumParams × FSumParams :=
      if drb.Eg ≤ dlb.Eg then
        ({ st.lb with Eg := iEg - 3 / 10 }, { st.rb with Eg := iEg + 3 / 10 })
      else (dlb, drb)
    let pm := x.map (fun t =>
      (if npPercentile x 10 ≤ t then true else false) &&
      (if t ≤ npPercentile x 90 then true else false))
    let prelim := (fitData M (maskSelect x pm) (maskSelect cleaned pm) dynStart bds).1
    match (if st.fitmode = 0 then
        some (List.replicate x.length (0 : ℝ), List.replicate x.length false)
      else fitBaseline st.fitmode x rawcol (some prelim.Eg) (some prelim.Eb)) with
    | none => none
    | some bl =>
      let ydata := List.zipWith (· - ·) rawcol bl.1
      let core := finalStageCore M x ydata minE maxE autoRange prelim bds
      some (⟨core.1, core.2.1, core.2.2, bl.1, bl.2,
        rSquaredOf ydata core.2.2 core.2.1,
        calculateUrbach x ydata core.1.Eb core.1.Eg,
        fsum2d core.1 x ydata⟩,
        { st with startPoint := core.1 })

/-- The dataset loop of `process_file` (fitter.py lines 400-610): datasets are
processed in order, each seeded through the fitter state mutated by the
previous one.  Returns the per-dataset estimates and the final fitter state. -/
noncomputable def processAll (M : Minimizer) (minE maxE : Option ℝ)
    (autoRange : Option Bool) (st : FitterState) (x : List ℝ) :
    List (List ℝ) → Option (List FSumParams × FitterState)
  | [] => some ([], st)
  | col :: rest =>
    match processDataset M minE maxE autoRange st x col with
    | none => none
    | some r =>
      match processAll M minE maxE autoRange r.2 x rest with
      | none => none
      | some tail => some (r.1.est :: tail.1, tail.2)

/-- Modelled from the spec's words for C1: the exciton term with the
hyperbolic-secant shape factor squared (`sech²((E-Enx)/Γ)`), everything else
as in the code. -/
noncomputable def excitonTermSpecSq (p : FSumParams) (i : ℕ) (E : ℝ) : ℝ :=
  if |(i : ℝ) - p.q| < 1 / 10 ^ 10 then 0
  else
    2 * p.Eb / ((i : ℝ) - p.q) ^ 3 *
      sech (clip700 ((E - (p.Eg - p.Eb / ((i : ℝ) - p.q) ^ 2)) / gammaSafe p.gamma)) ^ 2

/-- Modelled from the spec's words for C1: the exciton output of `fsum2d`
as it would be with the squared shape factor. -/
noncomputable def fsum2dSpecExciton (p : FSumParams) (x : List ℝ) : List ℝ :=
  x.map (fun E => p.ucvsq * Real.sqrt p.Eb *
    ((List.range 50).map (fun k => excitonTermSpecSq p (k + 1) E)).sum)

lemma bandRow_length (p : FSumParams) (Ei : ℝ) (x : List ℝ) :
    (bandRow p Ei x).length = x.length := by
  simp only [bandRow]
  split <;> simp

lemma vadd_length (u v : List ℝ) : (vadd u v).length = min u.length v.length := by
  simp [vadd]

lemma vsmul_length (c : ℝ) (v : List ℝ) : (vsmul c v).length = v.length := by
  simp [vsmul]

lemma trapzAux_length (l : List (ℝ × List ℝ)) (n : ℕ)
    (h : ∀ pr ∈ l, pr.2.length = n) : (trapzAux l n).length = n := by
  induction l with
  | nil => simp [trapzAux]
  | cons hd tl ih =>
    cases tl with
    | nil =>
      obtain ⟨e1, r1⟩ := hd
      simp [trapzAux]
    | cons hd2 tl2 =>
      obtain ⟨e1, r1⟩ := hd
      obtain ⟨e2, r2⟩ := hd2
      have h1 : r1.length = n := h (e1, r1) (by simp)
      have h2 : r2.length = n := h (e2, r2) (by simp)
      have h3 : (trapzAux ((e2, r2) :: tl2) n).length = n :=
        ih (fun pr hpr => h pr (List.mem_cons_of_mem _ hpr))
      simp only [trapzAux, vadd_length, vsmul_length, h1, h2, h3]
      omega

lemma fsum2dBandC_length (p : FSumParams) (x : List ℝ) :
    (fsum2dBandC p x).length = x.length := by
  unfold fsum2dBandC
  apply trapzAux_length
  intro pr hpr
  obtain ⟨a, r⟩ := pr
  obtain ⟨-, h2⟩ := List.of_mem_zip hpr
  obtain ⟨Ei, -, rfl⟩ := List.mem_map.mp h2
  exact bandRow_length p Ei x

/-- C9: when `q` equals an integer `n ∈ [1, 50]`, the `n`-th exciton term is
skipped (it contributes 0, by the `|n - q| < 1e-10` guard rather than by a
division), the exciton sum equals the sum with that term zeroed out, and the
effective linewidth is `max(|Gamma|, 1e-10)`, which is strictly positive even
for `Gamma = 0`, so no lineshape denominator vanishes. -/
theorem C9_singular_skip (p : FSumParams) (E : ℝ) (n : ℕ) (h1 : 1 ≤ n)
    (h50 : n ≤ 50) (hq : p.q = (n : ℝ)) :
    excitonTerm p n E = 0 ∧
    excitonA1 p E = ((List.range 50).map (fun k =>
      if k + 1 = n then 0 else excitonTerm p (k + 1) E)).sum ∧
    gammaSafe p.gamma = max |p.gamma| (1 / 10 ^ 10) ∧
    0 < gammaSafe p.gamma := by
  have hc : |(n : ℝ) - (n : ℝ)| < 1 / 10 ^ 10 := by
    rw [sub_self, abs_zero]; norm_num
  have hskip : excitonTerm p n E = 0 := by
    unfold excitonTerm
    rw [hq, if_pos hc]
  refine ⟨hskip, ?_, rfl, lt_of_lt_of_le (by norm_num) (le_max_right _ _)⟩
  unfold excitonA1
  congr 1
  apply List.map_congr_left
  intro k _
  by_cases hkn : k + 1 = n
  · rw [if_pos hkn, hkn, hskip]
  · rw [if_neg hkn]

/-- Witness for C9 at `q = 2`, `Gamma = 0`. -/
theorem C9_singular_skip_witness :
    excitonTerm ⟨2, 1, 0, 1, 1, (2 : ℝ)⟩ 2 0 = 0 ∧
    excitonA1 ⟨2, 1, 0, 1, 1, (2 : ℝ)⟩ 0 = ((List.range 50).map (fun k =>
      if k + 1 = 2 then 0 else excitonTerm ⟨2, 1, 0, 1, 1, (2 : ℝ)⟩ (k + 1) 0)).sum ∧
    gammaSafe (0 : ℝ) = max |(0 : ℝ)| (1 / 10 ^ 10) ∧
    0 < gammaSafe (0 : ℝ) :=
  C9_singular_skip ⟨2, 1, 0, 1, 1, (2 : ℝ)⟩ 0 2 (by norm_num) (by norm_num)
    (by norm_num)

/-- C2 (amended): for `mhcnp ≤ 0` the returned sse is exactly 10 times the
unpenalized residual `sum((FittedCurve - ydata)^2)` of the same run — the
penalty scales the residual computed at the same parameter vector. -/
theorem C2_penalty_same_params (p : FSumParams) (x y : List ℝ)
    (hm : p.mhcnp ≤ 0) : (fsum2d p x y).1 = 10 * fsum2dRawSSE p x y := by
  simp only [fsum2d, fsum2dRawSSE, if_pos hm]
  rw [List.map_zipWith]

/-- Witness for the amended C2. -/
theorem C2_penalty_same_params_witness :
    (⟨1, 0, 1, 1, 0, 0⟩ : FSumParams).mhcnp ≤ 0 ∧
    (fsum2d ⟨1, 0, 1, 1, 0, 0⟩ [1] [1]).1 =
      10 * fsum2dRawSSE ⟨1, 0, 1, 1, 0, 0⟩ [1] [1] :=
  ⟨by norm_num, C2_penalty_same_params ⟨1, 0, 1, 1, 0, 0⟩ [1] [1] (by norm_num)⟩

lemma fsum2dFitted_p0 : fsum2dFitted ⟨1, 0, 1, 1, 0, 0⟩ [1] = [0] := by
  have hl : (fsum2dBandC ⟨1, 0, 1, 1, 0, 0⟩ [1]).length = 1 := by
    rw [fsum2dBandC_length]; rfl
  obtain ⟨b, hb⟩ := List.length_eq_one.mp hl
  unfold fsum2dFitted
  rw [hb]
  simp [fsum2dA1, Real.sqrt_zero]

lemma fsum2d_p0_sse : (fsum2d ⟨1, 0, 1, 1, 0, 0⟩ [1] [1]).1 = 10 := by
  simp only [fsum2d]
  rw [fsum2dFitted_p0]
  norm_num

/-- Counterexample to C2 as stated: at `mhcnp = 0` (which satisfies
`mhcnp ≤ 0`), with `Eb = 0` so the fitted curve vanishes, both the original
and the sign-flipped run return sse `10`, so the claimed identity
`sse = 10 * sse_flipped` would force `10 = 100`. -/
theorem C2_counterexample :
    ¬ ((fsum2d ⟨1, 0, 1, 1, 0, 0⟩ [1] [1]).1 =
        10 * (fsum2d ⟨1, 0, 1, 1, -(0 : ℝ), 0⟩ [1] [1]).1) := by
  have hp : (⟨1, 0, 1, 1, -(0 : ℝ), 0⟩ : FSumParams) = ⟨1, 0, 1, 1, 0, 0⟩ := by
    simp
  rw [hp, fsum2d_p0_sse]
  norm_num

/-- Counterexample to C4 as stated: with the unsupported mode 3 and a
one-point axis the attempted mask selects a single point, so the
`len(x_fit) < 2` early return (fitter.py line 128) fires before the mode
dispatch and the call returns a zero baseline instead of raising. -/
theorem C4_counterexample : fitBaseline 3 [(1 : ℝ)] [1] none none ≠ none := by
  have hval : fitBaseline 3 [(1 : ℝ)] [1] none none = some ([0], [true]) := by
    norm_num [fitBaseline, baselineMask, maskSelect, List.range_succ]
  rw [hval]
  simp

/-- C4 (amended): an unsupported baseline mode raises only when the attempted
mask selects at least 2 points; with fewer than 2 masked points the early
return yields a zero baseline and the attempted mask without raising. -/
theorem C4_unsupported_mode (fm : ℤ) (x y : List ℝ) (Eg Eb : Option ℝ)
    (h0 : fm ≠ 0) (h1 : fm ≠ 1) (h2 : fm ≠ 2) :
    (2 ≤ (maskSelect x (baselineMask x Eg Eb)).length →
      fitBaseline fm x y Eg Eb = none) ∧
    ((maskSelect x (baselineMask x Eg Eb)).length < 2 →
      fitBaseline fm x y Eg Eb =
        some (List.replicate x.length 0, baselineMask x Eg Eb)) := by
  constructor
  · intro hlen
    have hnl : ¬ ((maskSelect x (baselineMask x Eg Eb)).length < 2) := by omega
    simp [fitBaseline, h0, h1, h2, hnl]
  · intro hlen
    simp [fitBaseline, h0, h1, h2, hlen]

/-- Witness for the amended C4: mode 3 with a two-point mask raises. -/
theorem C4_unsupported_mode_witness :
    2 ≤ (maskSelect [(1 : ℝ), 2] (baselineMask [(1 : ℝ), 2] none none)).length ∧
    fitBaseline 3 [(1 : ℝ), 2] [1, 1] none none = none := by
  have hsel : maskSelect [(1 : ℝ), 2] (baselineMask [(1 : ℝ), 2] none none) = [1, 2] := by
    norm_num [baselineMask, maskSelect, List.range_succ]
  have h2 : 2 ≤ (maskSelect [(1 : ℝ), 2] (baselineMask [(1 : ℝ), 2] none none)).length := by
    rw [hsel]; norm_num
  exact ⟨h2, (C4_unsupported_mode 3 [(1 : ℝ), 2] [1, 1] none none
    (by norm_num) (by norm_num) (by norm_num)).1 h2⟩

/-- C5: mode 2 with at least 2 masked points returns the closed-form Rayleigh
baseline `a * E^4` with `a = sum(y_fit * E^4) / sum(E^8)` when the masked
`sum(E^8)` is at least `1e-10`, and the zero baseline (with the attempted
mask) when it is below `1e-10`. -/
theorem C5_rayleigh_baseline (x y : List ℝ) (Eg Eb : Option ℝ)
    (h2 : 2 ≤ (maskSelect x (baselineMask x Eg Eb)).length) :
    (1 / 10 ^ 10 ≤ ((maskSelect x (baselineMask x Eg Eb)).map (fun t => t ^ 8)).sum →
      fitBaseline 2 x y Eg Eb = some
        (x.map (fun t =>
          (List.zipWith (· * ·) (maskSelect y (baselineMask x Eg Eb))
              ((maskSelect x (baselineMask x Eg Eb)).map (fun t => t ^ 4))).sum /
            ((maskSelect x (baselineMask x Eg Eb)).map (fun t => t ^ 8)).sum * t ^ 4),
          baselineMask x Eg Eb)) ∧
    (((maskSelect x (baselineMask x Eg Eb)).map (fun t => t ^ 8)).sum < 1 / 10 ^ 10 →
      fitBaseline 2 x y Eg Eb =
        some (List.replicate x.length 0, baselineMask x Eg Eb)) := by
  have hnl : ¬ ((maskSelect x (baselineMask x Eg Eb)).length < 2) := by omega
  have t0 : ¬ ((2 : ℤ) = 0) := by norm_num
  have t1 : ¬ ((2 : ℤ) = 1) := by norm_num
  have t2 : (2 : ℤ) = 2 := rfl
  constructor
  · intro hge
    have hne : ¬ (((maskSelect x (baselineMask x Eg Eb)).map (fun t => t ^ 8)).sum
        < 1 / 10 ^ 10) := not_lt.mpr hge
    simp only [fitBaseline, if_neg t0, if_neg hnl, if_neg t1, if_pos t2, if_neg hne]
    simp
  · intro hlt
    simp only [fitBaseline, if_neg t0, if_neg hnl, if_neg t1, if_pos t2, if_pos hlt]
    simp

/-- Witness for C5 on the two-point axis `[1, 2]` with data `[1, 1]`:
`a = (1*1 + 1*16) / (1 + 256) = 17/257`. -/
theorem C5_rayleigh_baseline_witness :
    2 ≤ (maskSelect [(1 : ℝ), 2] (baselineMask [(1 : ℝ), 2] none none)).length ∧
    fitBaseline 2 [(1 : ℝ), 2] [1, 1] none none =
      some ([17 / 257 * 1 ^ 4, 17 / 257 * 2 ^ 4], baselineMask [(1 : ℝ), 2] none none) := by
  have hselx : maskSelect [(1 : ℝ), 2] (baselineMask [(1 : ℝ), 2] none none) = [1, 2] := by
    norm_num [baselineMask, maskSelect, List.range_succ]
  have hsely : maskSelect [(1 : ℝ), 1] (baselineMask [(1 : ℝ), 2] none none) = [1, 1] := by
    norm_num [baselineMask, maskSelect, List.range_succ]
  have h2 : 2 ≤ (maskSelect [(1 : ℝ), 2] (baselineMask [(1 : ℝ), 2] none none)).length := by
    rw [hselx]; norm_num
  refine ⟨h2, ?_⟩
  have happ := (C5_rayleigh_baseline [(1 : ℝ), 2] [1, 1] none none h2).1 (by
    rw [hselx]; norm_num)
  rw [happ, hselx, hsely]
  norm_num

/-- C7: in `calculate_urbach_energy` the threshold is `|Eb - Eg|`; when no
index has energy below it, or when the clamped window `[s, e)` with
`s = min(i+2, n-1)`, `e = min(i+10, n)` after the first crossing `i` is
empty, the function returns `(0, 0, zero curve)` without an error. -/
theorem C7_urbach_fallback (x y : List ℝ) (Eb Eg : ℝ) :
    (urbachIndices x Eb Eg = [] →
      calculateUrbach x y Eb Eg = (0, 0, List.replicate x.length 0)) ∧
    (∀ i rest, urbachIndices x Eb Eg = i :: rest →
      min (i + 10) x.length ≤ min (i + 2) (x.length - 1) →
      calculateUrbach x y Eb Eg = (0, 0, List.replicate x.length 0)) := by
  constructor
  · intro h
    simp [calculateUrbach, h]
  · intro i rest h hle
    simp [calculateUrbach, h, hle]

/-- Witness for C7: with `Eb = Eg = 1` the threshold is 0 and the one-point
axis `[1]` has no crossing, so the fallback triple is returned. -/
theorem C7_urbach_fallback_witness :
    urbachIndices [(1 : ℝ)] 1 1 = [] ∧
    calculateUrbach [(1 : ℝ)] [1] 1 1 = (0, 0, List.replicate 1 0) := by
  have hidx : urbachIndices [(1 : ℝ)] 1 1 = [] := by
    norm_num [urbachIndices, List.range_succ]
  exact ⟨hidx, (C7_urbach_fallback [(1 : ℝ)] [1] 1 1).1 hidx⟩

/-- C1 (amended): in `fsum2d` the hyperbolic-secant shape factor enters to the
FIRST power, not squared: each non-skipped exciton term is
`2*Eb/(n-q)^3 * (1/cosh(clip((E-Enx)/Gamma_safe)))`, each band-grid row above
the gap carries `(1/cosh(clip((E-E_i)/Gamma_safe))) * (1+b)/denominator`, and
the exciton output of `fsum2d` is `ucvsq*sqrt(Eb)` times the 50-term sum of
these first-power terms. -/
theorem C1_sech_first_power (p : FSumParams) (E Ei : ℝ) (x y : List ℝ) (n : ℕ)
    (hq : ¬ (|(n : ℝ) - p.q| < 1 / 10 ^ 10)) (hdE : ¬ (Ei - p.Eg ≤ 0)) :
    excitonTerm p n E =
      2 * p.Eb / ((n : ℝ) - p.q) ^ 3 *
        (1 / Real.cosh (max (-700) (min ((E - (p.Eg - p.Eb / ((n : ℝ) - p.q) ^ 2)) /
          max |p.gamma| (1 / 10 ^ 10)) 700))) ∧
    bandRow p Ei x = x.map (fun xj =>
      (1 / Real.cosh (max (-700) (min ((xj - Ei) / max |p.gamma| (1 / 10 ^ 10)) 700))) *
        ((1 + (10 * p.mhcnp * (Ei - p.Eg) + 126 * p.mhcnp ^ 2 * (Ei - p.Eg) ^ 2)) /
          (if p.Eb / (Ei - p.Eg) ≤ 0 then 1
           else if |1 - Real.exp (-(2 * Real.pi * Real.sqrt (p.Eb / (Ei - p.Eg))))| <
               1 / 10 ^ 10 then 1 / 10 ^ 10
           else 1 - Real.exp (-(2 * Real.pi * Real.sqrt (p.Eb / (Ei - p.Eg))))))) ∧
    (fsum2d p x y).2.2.1 = x.map (fun t => p.ucvsq * Real.sqrt p.Eb *
      ((List.range 50).map (fun k => excitonTerm p (k + 1) t)).sum) := by
  refine ⟨?_, ?_, ?_⟩
  · unfold excitonTerm sech clip700 gammaSafe
    rw [if_neg hq]
  · simp only [bandRow, sech, clip700, gammaSafe, if_neg hdE]
  · simp only [fsum2d, fsum2dA1, excitonA1, List.map_map]
    rfl

/-- Witness for the amended C1 at `(Eg, Eb, Gamma, ucvsq, mhcnp, q) =
(2, 1, 1, 1, 1, 0)`, `n = 1`, `E = 0`, grid point `Ei = 3`. -/
theorem C1_sech_first_power_witness :
    ¬ (|((1 : ℕ) : ℝ) - (0 : ℝ)| < 1 / 10 ^ 10) ∧
    ¬ ((3 : ℝ) - 2 ≤ 0) ∧
    excitonTerm ⟨2, 1, 1, 1, 1, 0⟩ 1 0 =
      2 * 1 / (((1 : ℕ) : ℝ) - 0) ^ 3 *
        (1 / Real.cosh (max (-700) (min ((0 - (2 - 1 / (((1 : ℕ) : ℝ) - 0) ^ 2)) /
          max |(1 : ℝ)| (1 / 10 ^ 10)) 700))) :=
  ⟨by norm_num, by norm_num,
    (C1_sech_first_power ⟨2, 1, 1, 1, 1, 0⟩ 0 3 [0] [0] 1 (by norm_num)
      (by norm_num)).1⟩

lemma sech_pos (t : ℝ) : 0 < sech t := by
  unfold sech
  exact div_pos one_pos (Real.cosh_pos t)

lemma sech_lt_one {t : ℝ} (ht : t ≠ 0) : sech t < 1 := by
  unfold sech
  rw [div_lt_one (Real.cosh_pos t)]
  exact Real.one_lt_cosh.mpr ht

lemma sech_sq_lt_sech {t : ℝ} (ht : t ≠ 0) : sech t ^ 2 < sech t := by
  have h0 := sech_pos t
  have h1 := sech_lt_one ht
  calc sech t ^ 2 = sech t * sech t := sq (sech t) ▸ rfl
    _ < 1 * sech t := by exact mul_lt_mul_of_pos_right h1 h0
    _ = sech t := one_mul _

/-- Counterexample to C1 as stated: at parameters `(2, 1, 1, 1, 1, 0)` and the
single energy point `E = 2`, every exciton term of the code (first-power
sech) strictly exceeds its squared-sech counterpart, so the exciton output of
`fsum2d` differs from the curve the spec sentence describes. -/
theorem C1_counterexample :
    (fsum2d ⟨2, 1, 1, 1, 1, 0⟩ [2] [0]).2.2.1 ≠
      fsum2dSpecExciton ⟨2, 1, 1, 1, 1, 0⟩ [2] := by
  have hterm : ∀ k ∈ List.range 50,
      excitonTermSpecSq ⟨2, 1, 1, 1, 1, 0⟩ (k + 1) 2 <
        excitonTerm ⟨2, 1, 1, 1, 1, 0⟩ (k + 1) 2 := by
    intro k hk
    have hkpos : (0 : ℝ) < (k : ℝ) + 1 := by positivity
    have hc : ¬ (|((k + 1 : ℕ) : ℝ) - (0 : ℝ)| < 1 / 10 ^ 10) := by
      push_cast
      rw [sub_zero, abs_of_pos hkpos]
      rw [not_lt]
      calc (1 : ℝ) / 10 ^ 10 ≤ 1 := by norm_num
        _ ≤ (k : ℝ) + 1 := by linarith
    unfold excitonTerm excitonTermSpecSq
    rw [if_neg hc, if_neg hc]
    have hq0 : (((k + 1 : ℕ) : ℝ) - (⟨2, 1, 1, 1, 1, 0⟩ : FSumParams).q) = (k : ℝ) + 1 := by
      push_cast
      norm_num
    have hamp : (0 : ℝ) < 2 * (⟨2, 1, 1, 1, 1, 0⟩ : FSumParams).Eb /
        (((k + 1 : ℕ) : ℝ) - (⟨2, 1, 1, 1, 1, 0⟩ : FSumParams).q) ^ 3 := by
      rw [hq0]
      show (0 : ℝ) < 2 * 1 / ((k : ℝ) + 1) ^ 3
      positivity
    apply mul_lt_mul_of_pos_left _ hamp
    apply sech_sq_lt_sech
    have harg : ((2 : ℝ) - ((⟨2, 1, 1, 1, 1, 0⟩ : FSumParams).Eg -
        (⟨2, 1, 1, 1, 1, 0⟩ : FSumParams).Eb /
          (((k + 1 : ℕ) : ℝ) - (⟨2, 1, 1, 1, 1, 0⟩ : FSumParams).q) ^ 2)) /
        gammaSafe (⟨2, 1, 1, 1, 1, 0⟩ : FSumParams).gamma = 1 / ((k : ℝ) + 1) ^ 2 := by
      rw [hq0]
      show ((2 : ℝ) - (2 - 1 / ((k : ℝ) + 1) ^ 2)) / gammaSafe 1 = 1 / ((k : ℝ) + 1) ^ 2
      have hg : gammaSafe 1 = 1 := by
        unfold gammaSafe
        rw [abs_one]
        rw [max_eq_left (by norm_num)]
      rw [hg]
      ring
    rw [harg]
    have hpos2 : (0 : ℝ) < 1 / ((k : ℝ) + 1) ^ 2 := by positivity
    have hle : 1 / ((k : ℝ) + 1) ^ 2 ≤ 700 := by
      have h1 : (1 : ℝ) ≤ ((k : ℝ) + 1) ^ 2 := by nlinarith
      calc 1 / ((k : ℝ) + 1) ^ 2 ≤ 1 / 1 := by
            apply div_le_div_of_nonneg_left (by norm_num) (by norm_num) h1
        _ ≤ 700 := by norm_num
    unfold clip700
    rw [min_eq_left hle, max_eq_right (by linarith)]
    positivity
  have hsum : ((List.range 50).map (fun k => excitonTermSpecSq ⟨2, 1, 1, 1, 1, 0⟩ (k + 1) 2)).sum <
      ((List.range 50).map (fun k => excitonTerm ⟨2, 1, 1, 1, 1, 0⟩ (k + 1) 2)).sum := by
    apply List.sum_lt_sum
    · exact fun i hi => le_of_lt (hterm i hi)
    · exact ⟨0, by simp, hterm 0 (by simp)⟩
  have hL : (fsum2d ⟨2, 1, 1, 1, 1, 0⟩ [2] [0]).2.2.1 =
      [1 * Real.sqrt 1 * ((List.range 50).map
        (fun k => excitonTerm ⟨2, 1, 1, 1, 1, 0⟩ (k + 1) 2)).sum] := by
    simp only [fsum2d, fsum2dA1, excitonA1, List.map_map, List.map_cons, List.map_nil]
  have hR : fsum2dSpecExciton ⟨2, 1, 1, 1, 1, 0⟩ [2] =
      [1 * Real.sqrt 1 * ((List.range 50).map
        (fun k => excitonTermSpecSq ⟨2, 1, 1, 1, 1, 0⟩ (k + 1) 2)).sum] := by
    simp only [fsum2dSpecExciton, List.map_cons, List.map_nil]
  rw [hL, hR]
  intro hcontra
  have heq := List.head_eq_of_cons_eq hcontra
  rw [Real.sqrt_one] at heq
  simp only [one_mul] at heq
  exact absurd heq (ne_of_gt hsum)

/-- C3: on the descending 21-point axis `[21, 20, ..., 1]` with `Eg = 2` and
no (or non-positive) `Eb`, only one point lies below `Eg`, so the fallback of
fitter.py lines 106-109 fires; it marks the FIRST `min(20, len)` array
positions — the high-energy end of this descending axis — and leaves the
single lowest-energy point (the last array position) unselected, contradicting
the documented orientation-aware "lowest-energy 20 points" selection. -/
theorem C3_descending_fallback :
    baselineMask
        [21, 20, 19, 18, 17, 16, 15, 14, 13, 12, 11, 10, 9, 8, 7, 6, 5, 4, 3, 2, (1 : ℝ)]
        (some 2) none
      = List.replicate 20 true ++ [false] ∧
    List.replicate 20 true ++ [false] ≠ [false] ++ List.replicate 20 true := by
  constructor
  · norm_num [baselineMask, countTrue, List.range_succ]
    decide
  · decide

lemma findCrossAsc_eq_find (x : List ℝ) : ∀ cd : List ℝ,
    findCrossAsc x cd =
      ((x.zip cd).find? (fun pr => if 1 / 100 < pr.2 then true else false)).map
        Prod.fst := by
  induction x with
  | nil => intro cd; cases cd <;> simp [findCrossAsc]
  | cons a xs ih =>
    intro cd
    cases cd with
    | nil => simp [findCrossAsc]
    | cons b cs =>
      simp only [findCrossAsc, List.zip_cons_cons]
      by_cases hb : 1 / 100 < b
      · have hpb : ((fun pr : ℝ × ℝ => if 1 / 100 < pr.2 then true else false) (a, b)) = true := by
          show (if (1 : ℝ) / 100 < b then true else false) = true
          rw [if_pos hb]
        rw [if_pos hb,
          @List.find?_cons_of_pos (ℝ × ℝ)
            (fun pr => if 1 / 100 < pr.2 then true else false) (a, b) (xs.zip cs) hpb]
        rfl
      · have hpb : ¬ (((fun pr : ℝ × ℝ => if 1 / 100 < pr.2 then true else false) (a, b)) = true) := by
          show ¬ ((if (1 : ℝ) / 100 < b then true else false) = true)
          rw [if_neg hb]
          simp
        rw [if_neg hb,
          @List.find?_cons_of_neg (ℝ × ℝ)
            (fun pr => if 1 / 100 < pr.2 then true else false) (a, b) (xs.zip cs) hpb]
        exact ih cs

lemma findCrossDesc_eq_take_reverse (x cd : List ℝ) (hlen : x.length = cd.length) :
    ∀ k : ℕ, findCrossDesc x cd k =
      findCrossAsc ((x.take (k + 1)).reverse) ((cd.take (k + 1)).reverse) := by
  intro k
  induction k with
  | zero =>
    cases x with
    | nil =>
      have hc : cd = [] := List.length_eq_zero.mp (by rw [← hlen]; rfl)
      subst hc
      simp [findCrossDesc, findCrossAsc]
    | cons a xs =>
      cases cd with
      | nil => exact absurd hlen (by simp)
      | cons b cs =>
        simp only [findCrossDesc, findCrossAsc, List.take_succ_cons, List.take_zero,
          List.reverse_cons, List.reverse_nil, List.nil_append, List.getD_cons_zero]
  | succ k ih =>
    by_cases hk : k + 1 < x.length
    · have hkc : k + 1 < cd.length := by omega
      have hxq : x[(k + 1)]? = some (x.get ⟨k + 1, hk⟩) := by
        rw [List.getElem?_eq_getElem hk]
        rfl
      have hcq : cd[(k + 1)]? = some (cd.get ⟨k + 1, hkc⟩) := by
        rw [List.getElem?_eq_getElem hkc]
        rfl
      have hgx : x.getD (k + 1) 0 = x.get ⟨k + 1, hk⟩ := by
        rw [List.getD_eq_getElem?_getD, hxq]
        rfl
      have hgc : cd.getD (k + 1) 0 = cd.get ⟨k + 1, hkc⟩ := by
        rw [List.getD_eq_getElem?_getD, hcq]
        rfl
      have hxt : x.take (k + 2) = x.take (k + 1) ++ [x.get ⟨k + 1, hk⟩] := by
        rw [List.take_succ, hxq]
        rfl
      have hct : cd.take (k + 2) = cd.take (k + 1) ++ [cd.get ⟨k + 1, hkc⟩] := by
        rw [List.take_succ, hcq]
        rfl
      rw [show k + 1 + 1 = k + 2 from rfl, hxt, hct]
      rw [List.reverse_append, List.reverse_append]
      simp only [List.reverse_cons, List.reverse_nil, List.nil_append,
        List.singleton_append]
      simp only [findCrossDesc, findCrossAsc, hgx, hgc]
      by_cases hb : 1 / 100 < cd.get ⟨k + 1, hkc⟩
      · rw [if_pos hb, if_pos hb]
      · rw [if_neg hb, if_neg hb]
        exact ih
    · have hx2 : x.take (k + 2) = x := List.take_of_length_le (by omega)
      have hx1 : x.take (k + 1) = x := List.take_of_length_le (by omega)
      have hc2 : cd.take (k + 2) = cd := List.take_of_length_le (by omega)
      have hc1 : cd.take (k + 1) = cd := List.take_of_length_le (by omega)
      have hgc : cd.getD (k + 1) 0 = 0 := by
        rw [List.getD_eq_getElem?_getD, List.getElem?_eq_none (by omega)]
        rfl
      rw [show k + 1 + 1 = k + 2 from rfl, hx2, hc2]
      rw [hx1, hc1] at ih
      simp only [findCrossDesc, hgc]
      rw [if_neg (by norm_num)]
      exact ih

/-- C6: for both axis orientations (the code branches on
`xdata[0] < xdata[-1]`), the bandgap-detection step picks the energy of the
first point, in increasing-energy scan order, whose cleaned absorption
exceeds `0.01`, and falls back to the median energy when no point crosses. -/
theorem C6_bandgap_detection (x c : List ℝ) (hlen : x.length = c.length) :
    initialEg x c = specInitialEg x c := by
  unfold initialEg specInitialEg
  by_cases hor : x.headD 0 < x.getLastD 0
  · simp only [if_pos hor]
    rw [findCrossAsc_eq_find]
  · simp only [if_neg hor]
    have h1 : findCrossDesc x c (c.length - 1) = findCrossAsc x.reverse c.reverse := by
      rcases Nat.eq_zero_or_pos c.length with h0 | hpos
      · have hc : c = [] := List.length_eq_zero.mp h0
        have hx : x = [] := List.length_eq_zero.mp (by rw [hlen, h0])
        subst hc hx
        simp [findCrossDesc, findCrossAsc]
      · have hsucc : c.length - 1 + 1 = c.length := Nat.succ_pred_eq_of_pos hpos
        have := findCrossDesc_eq_take_reverse x c hlen (c.length - 1)
        rw [hsucc] at this
        rw [this, List.take_of_length_le (by omega), List.take_of_length_le (by omega)]
    rw [h1, findCrossAsc_eq_find]

/-- Witness for C6 on the descending axis `[3, 2, 1]` with cleaned data
`[0, 1, 0]`. -/
theorem C6_bandgap_detection_witness :
    ([(3 : ℝ), 2, 1].length = [(0 : ℝ), 1, 0].length) ∧
    initialEg [(3 : ℝ), 2, 1] [(0 : ℝ), 1, 0] =
      specInitialEg [(3 : ℝ), 2, 1] [(0 : ℝ), 1, 0] :=
  ⟨rfl, C6_bandgap_detection [(3 : ℝ), 2, 1] [(0 : ℝ), 1, 0] rfl⟩

/-- C8: the reported quality is `R^2 = 1 - sse / SStot`, where `sse` and the
fit mask are the authoritative pair produced by the final fit (the auto-range
refit when it ran, otherwise the step-5 fit), `SStot` is the total sum of
squares of the cleaned data restricted to that same mask, and a vanishing
`SStot` yields `R^2 = 0` instead of a division; moreover with auto-range
disabled the authoritative mask is the step-5 mask. -/
theorem C8_r_squared (M : Minimizer) (x ydata col : List ℝ)
    (minE maxE : Option ℝ) (autoRange : Option Bool) (start : FSumParams)
    (bds : FSumParams × FSumParams) (st : FitterState) :
    (let r := finalStage M x ydata minE maxE autoRange start bds
     let yf := maskSelect ydata r.fitMask
     let mean := yf.sum / (yf.length : ℝ)
     let ssTot := (yf.map (fun v => (v - mean) ^ 2)).sum
     r.rsq = if 0 < ssTot then 1 - r.sse / ssTot else 0) ∧
    (autoRange = some false →
      (finalStage M x ydata minE maxE autoRange start bds).fitMask =
        step5Mask x minE maxE) ∧
    (∀ pr : DatasetResult × FitterState,
      processDataset M minE maxE autoRange st x col = some pr →
      pr.1.rsq = rSquaredOf (List.zipWith (· - ·) col pr.1.baseline)
        pr.1.fitMask pr.1.sse) := by
  refine ⟨rfl, ?_, ?_⟩
  · intro h
    subst h
    simp [finalStage, finalStageCore]
  · intro pr h
    unfold processDataset at h
    split at h
    · exact absurd h (by simp)
    · dsimp only at h
      split at h
      · exact absurd h (by simp)
      · rw [Option.some_inj] at h
        subst h
        rfl

/-- Witness for C8 with auto-range disabled. -/
theorem C8_r_squared_witness :
    (finalStage (fun s _ _ _ => s) [] [] none none (some false) ⟨0, 0, 0, 0, 0, 0⟩
      (⟨0, 0, 0, 0, 0, 0⟩, ⟨0, 0, 0, 0, 0, 0⟩)).fitMask = step5Mask [] none none :=
  (C8_r_squared (fun s _ _ _ => s) [] [] [] none none (some false) ⟨0, 0, 0, 0, 0, 0⟩
    (⟨0, 0, 0, 0, 0, 0⟩, ⟨0, 0, 0, 0, 0, 0⟩)
    ⟨0, 0, 0, ⟨0, 0, 0, 0, 0, 0⟩, ⟨0, 0, 0, 0, 0, 0⟩, ⟨0, 0, 0, 0, 0, 0⟩⟩).2.1 rfl

lemma processDataset_state (M : Minimizer) (minE maxE : Option ℝ)
    (autoRange : Option Bool) (st : FitterState) (x col : List ℝ)
    (pr : DatasetResult × FitterState)
    (h : processDataset M minE maxE autoRange st x col = some pr) :
    pr.2.deltaE = st.deltaE ∧ pr.2.NS = st.NS ∧ pr.2.fitmode = st.fitmode ∧
    pr.2.lb = st.lb ∧ pr.2.rb = st.rb ∧ pr.2.startPoint = pr.1.est := by
  unfold processDataset at h
  split at h
  · exact absurd h (by simp)
  · dsimp only at h
    split at h
    · exact absurd h (by simp)
    · rw [Option.some_inj] at h
      subst h
      exact ⟨rfl, rfl, rfl, rfl, rfl, rfl⟩

/-- C10: `process_file` overwrites the fitter's `start_point` with each
dataset's converged estimates (fitter.py line 575) while leaving `deltaE`,
`NS`, `fitmode`, `lb` and `rb` untouched; after a run the stored start point
is the last dataset's converged estimate, so a further run on the same
fitter is seeded from it rather than from the constructor defaults. -/
theorem C10_warm_start_mutation (M : Minimizer) (minE maxE : Option ℝ)
    (autoRange : Option Bool) (st : FitterState) (x : List ℝ)
    (cols : List (List ℝ)) (ests : List FSumParams) (stF : FitterState)
    (h : processAll M minE maxE autoRange st x cols = some (ests, stF)) :
    stF.deltaE = st.deltaE ∧ stF.NS = st.NS ∧ stF.fitmode = st.fitmode ∧
    stF.lb = st.lb ∧ stF.rb = st.rb ∧
    (∀ e, ests.getLast? = some e → stF.startPoint = e) ∧
    (ests = [] → stF = st) := by
  induction cols generalizing st ests stF with
  | nil =>
    unfold processAll at h
    rw [Option.some_inj, Prod.ext_iff] at h
    obtain ⟨he, hs⟩ := h
    dsimp only at he hs
    subst he
    subst hs
    refine ⟨rfl, rfl, rfl, rfl, rfl, ?_, fun _ => rfl⟩
    intro e he2
    simp at he2
  | cons col rest ih =>
    unfold processAll at h
    split at h
    · exact absurd h (by simp)
    next r heqr =>
      split at h
      · exact absurd h (by simp)
      next tail heqt =>
        rw [Option.some_inj, Prod.ext_iff] at h
        obtain ⟨he, hs⟩ := h
        dsimp only at he hs
        subst hs
        have hst := processDataset_state M minE maxE autoRange st x col r heqr
        have hih := ih r.2 tail.1 tail.2 heqt
        refine ⟨hih.1.trans hst.1, hih.2.1.trans hst.2.1,
          hih.2.2.1.trans hst.2.2.1, hih.2.2.2.1.trans hst.2.2.2.1,
          hih.2.2.2.2.1.trans hst.2.2.2.2.1, ?_, ?_⟩
        · intro e he2
          subst he
          match htail : tail.1 with
          | [] =>
            rw [htail] at he2
            simp only [List.getLast?_singleton] at he2
            have htf : tail.2 = r.2 := hih.2.2.2.2.2.2 htail
            injection he2 with he3
            rw [htf, hst.2.2.2.2.2]
            exact he3
          | a :: l =>
            rw [htail] at he2
            rw [List.getLast?_cons_cons] at he2
            have := hih.2.2.2.2.2.1 e
            rw [htail] at this
            exact this he2
        · intro hcon
          subst he
          exact absurd hcon (List.cons_ne_nil _ _)

/-- Witness for C10: an empty dataset list returns the fitter state intact. -/
theorem C10_warm_start_mutation_witness :
    (⟨1, 20, 2, ⟨2, 1, 1, 37, 1, 0⟩, ⟨2, 0, 0, 0, 0, 0⟩, ⟨3, 1, 1, 1000, 1, 2⟩⟩ :
        FitterState).deltaE = 1 ∧
    (⟨1, 20, 2, ⟨2, 1, 1, 37, 1, 0⟩, ⟨2, 0, 0, 0, 0, 0⟩, ⟨3, 1, 1, 1000, 1, 2⟩⟩ :
        FitterState).deltaE =
      (⟨1, 20, 2, ⟨2, 1, 1, 37, 1, 0⟩, ⟨2, 0, 0, 0, 0, 0⟩, ⟨3, 1, 1, 1000, 1, 2⟩⟩ :
        FitterState).deltaE :=
  ⟨rfl, (C10_warm_start_mutation (fun s _ _ _ => s) none none none
    ⟨1, 20, 2, ⟨2, 1, 1, 37, 1, 0⟩, ⟨2, 0, 0, 0, 0, 0⟩, ⟨3, 1, 1, 1000, 1, 2⟩⟩
    [] [] [] ⟨1, 20, 2, ⟨2, 1, 1, 37, 1, 0⟩, ⟨2, 0, 0, 0, 0, 0⟩, ⟨3, 1, 1, 1000, 1, 2⟩⟩
    rfl).1⟩
